import Mathlib

/-!
Verification of the Auto Montage Builder Pro pipeline (Python sources under
src/) against its natural-language specification.  The Python code is
shallowly embedded: pure string/number computations become Lean functions,
external-process outcomes (encoder exit codes, file existence, random draws,
capability probes) become explicit parameters, and the control flow of each
embedded function mirrors the corresponding Python function line by line.
-/

namespace AutoMontage

/-- Python str.join over a separator, as used by ",".join(filters) in
filters.py.  joinSep sep [a, b, c] = a ++ sep ++ b ++ sep ++ c. -/
def joinSep (sep : String) : List String → String
  | [] => ""
  | [a] => a
  | a :: rest => a ++ sep ++ joinSep sep rest

/-- The subset of models.EffectSettings fields that the embedded operations
read (models.py lines 134-204).  Numeric fields are rationals (Python ints
and floats), list and string fields are kept as in the source. -/
structure EffectSettings where
  ken_burns : List String := []
  ken_burns_intensity : ℚ := 30
  kb_randomize : Bool := false
  easing_type : String := "ease"
  capcut_effects : List String := []
  scale_amplitude : ℚ := 15
  zoom_burst_start : ℚ := 150
  zoom_burst_decay : ℚ := 80
  motion_effects : List String := []
  motion_intensity : ℚ := 30
  effect_frequency : String := "all"
  effect_percent : ℕ := 50
  effect_every : ℕ := 3
  capcut_timing : String := "start"
  audio_pitch : String := "0"
  audio_effect : String := "none"
  audio_stereo_enhance : Bool := false
  audio_normalize : Bool := true
  audio_compressor : Bool := false
  audio_limiter : Bool := false
  add_black_frame : Bool := true
  fade_out_to_black : Bool := false
  deriving Repr, DecidableEq

/-- The Ken Burns ids accepted by models.EffectSettings._validate_effect_lists
(the values of the KenBurnsEffect enum, models.py lines 35-47). -/
def validKenBurns : List String :=
  ["zoomIn", "zoomOut", "panLeft", "panRight", "panUp", "panDown",
   "rotate", "diagonal", "zoomRotate", "parallax", "spiral", "shake"]

/-- The CapCut ids accepted by models.EffectSettings._validate_effect_lists
(the values of the CapCutEffect enum, models.py lines 49-65). -/
def validCapcut : List String :=
  ["zoomBurst", "pulse", "bounce", "elastic", "wave", "glitch", "shake",
   "wobble", "pendulum", "swing", "spin", "flip", "zoomBlur", "chromatic",
   "rgbSplit", "distortion"]

/-! ## EffectsManager (engine.py lines 824-883) -/

/-- EffectsManager._should_apply_capcut (engine.py lines 872-883).  The draw
of random.randint(1, 100) is the explicit argument percentRoll and the draw
of random.choice([True, False]) is the argument coin. -/
def shouldApplyCapcut (s : EffectSettings) (percentRoll : ℕ) (coin : Bool)
    (clipIndex : ℕ) : Bool :=
  if s.effect_frequency = "all" then true
  else if s.effect_frequency = "percent" then percentRoll ≤ s.effect_percent
  else if s.effect_frequency = "every" then (clipIndex + 1) % s.effect_every == 0
  else if s.effect_frequency = "random" then coin
  else false

/-- Python list slicing used_effects[-2:] (engine.py line 844): the last two
elements of the list (or the whole list when it is shorter). -/
def lastTwo (l : List String) : List String := l.drop (l.length - 2)

/-- The filtered candidate list for a randomized Ken Burns pick
(engine.py line 843-844): entries of the configured list that are not among
the previous two picks. -/
def kbAvailable (kenBurns used : List String) : List String :=
  kenBurns.filter (fun e => !(decide (e ∈ lastTwo used)))

/-- The list from which random.choice draws a randomized Ken Burns effect
(engine.py lines 843-846): the filtered list, falling back to the full
configured list when the filtered list is empty. -/
def kbCandidates (kenBurns used : List String) : List String :=
  let available := kbAvailable kenBurns used
  if available.isEmpty then kenBurns else available

/-- The CapCut slot assignment of EffectsManager.get_effects_for_clip
(engine.py lines 856-869), for a clip on which the frequency predicate fired
and capcut_effects is nonempty.  The three random.choice call sites return
c1, c2 and c3 respectively; the result is the pair
(effects[capcut_start], effects[capcut_end]). -/
def capcutSlots (timing : String) (c1 c2 c3 : String) :
    Option String × Option String :=
  let startSlot := if timing = "start" ∨ timing = "random" then some c1 else none
  let endSlot := if timing = "end" ∨ timing = "random" then some c2 else none
  let startSlot := if timing = "middle" then some c3 else startSlot
  (startSlot, endSlot)

/-! ## FFmpegUtils.get_duration (utils.py lines 128-163) -/

/-- The probe data that FFmpegUtils.get_duration inspects for one input path:
the optional duration string of the container format section of the media
info JSON, the optional duration string of each stream, and the optional
captured groups of the regex
Duration: (dd):(dd):(dd).(dd) over the transcoder diagnostic output. -/
structure MediaProbe where
  fmtDuration : Option String
  streamDurations : List (Option String)
  stderrDuration : Option (ℕ × ℕ × ℕ × ℕ)

/-- The stream loop of get_duration (utils.py lines 139-145): the first
stream duration field that parses as a float; parse failures fall through to
the next stream. -/
def firstParsedStream (pf : String → Option ℚ) :
    List (Option String) → Option ℚ
  | [] => none
  | none :: rest => firstParsedStream pf rest
  | some s :: rest =>
    match pf s with
    | some v => some v
    | none => firstParsedStream pf rest

/-- FFmpegUtils.get_duration (utils.py lines 128-163).  pf models the Python
float(...) parser (returning none where float raises ValueError).  The
format duration is tried first, then each stream, then the Duration regex
over the diagnostic output, and finally the fixed default 10.0. -/
def getDuration (pf : String → Option ℚ) (m : MediaProbe) : ℚ :=
  match m.fmtDuration.bind pf with
  | some v => v
  | none =>
    match firstParsedStream pf m.streamDurations with
    | some v => v
    | none =>
      match m.stderrDuration with
      | some (h, mi, s, c) => h * 3600 + mi * 60 + s + (c : ℚ) / 100
      | none => 10

/-! ## MontageEngine clip loop (engine.py lines 171-255 and 305-462) -/

/-- The externally observable outcome of one MontageEngine._create_video_clip
invocation: whether the input media file exists, whether the body raised,
the encoder exit code, and whether the output file exists afterwards. -/
structure ClipEncodeOutcome where
  inputExists : Bool
  raised : Bool
  returncode : ℤ
  outputExists : Bool
  deriving Repr, DecidableEq

/-- MontageEngine._create_video_clip result (engine.py lines 305-462): the
output path is returned exactly when no exception was raised, the input
exists, the encoder exited with code 0 and the output file exists
(lines 316-318 and 449-455); every other outcome returns None. -/
def createVideoClip (o : ClipEncodeOutcome) (outputPath : String) :
    Option String :=
  if !o.inputExists then none
  else if o.raised then none
  else if o.returncode = 0 ∧ o.outputExists then some outputPath else none

/-- The per-pair loop of MontageEngine.generate_channel_montage
(engine.py lines 193-227): each pair contributes its clip path to
video_clips exactly when _create_video_clip returned a path and that path
exists (line 215); failed pairs are skipped and the loop continues. -/
def generateClips (pairs : List (ClipEncodeOutcome × String)) : List String :=
  pairs.filterMap (fun op =>
    match createVideoClip op.1 op.2 with
    | some q => if op.1.outputExists then some q else none
    | none => none)

/-- MontageEngine.generate_channel_montage (engine.py lines 171-255) reduced
to its observable result: None when there are no pairs (line 179-181), None
when no clip survived the loop (lines 229-231), otherwise the output path
when _combine_clips succeeded and None when it failed (lines 244-255). -/
def generateChannelMontage (pairs : List (ClipEncodeOutcome × String))
    (combineOk : Bool) (outputPath : String) : Option String :=
  if pairs.isEmpty then none
  else
    let clips := generateClips pairs
    if clips.isEmpty then none
    else if combineOk then some outputPath else none

/-! ## Overlays and the black frame step (engine.py lines 599-607, 725-802) -/

/-- The external outcome of one MontageEngine._apply_overlays invocation:
the configured overlay file list, whether the chosen overlay file exists,
whether the body raised, and the compositing encoder exit code. -/
structure OverlayOutcome where
  files : List String
  chosenExists : Bool
  raised : Bool
  returncode : ℤ
  deriving Repr, DecidableEq

/-- MontageEngine._apply_overlays (engine.py lines 725-775).  The first
component is the returned success flag; the second records whether the
pre-overlay output file was removed (the video_path.unlink() on line 766,
which runs only on the success path just before the rename). -/
def applyOverlays (o : OverlayOutcome) : Bool × Bool :=
  if o.files.isEmpty then (true, false)
  else if !o.chosenExists then (true, false)
  else if o.raised then (false, false)
  else if o.returncode = 0 then (true, true)
  else (false, false)

/-- The post-assembly tail of MontageEngine._combine_clips
(engine.py lines 599-607).  assembleOk is the success flag after the final
concat encode; the first component is the success value _combine_clips
returns, the second records whether _add_black_frame was invoked
(line 600: success and add_black_frame and fade_out_to_black). -/
def combineClipsTail (assembleOk : Bool) (effects : EffectSettings)
    (overlaysEnabled : Bool) (ov : OverlayOutcome) : Bool × Bool :=
  let blackFrameRan := assembleOk && effects.add_black_frame
      && effects.fade_out_to_black
  let success :=
    if assembleOk ∧ overlaysEnabled ∧ ¬ov.files.isEmpty then
      (applyOverlays ov).1
    else assembleOk
  (success, blackFrameRan)

/-- The FFmpeg command built by MontageEngine._add_black_frame
(engine.py lines 784-794): concat of the video with one second of black,
re-encoding video with libx264 while stream-copying audio. -/
def addBlackFrameCmd (ffmpeg videoPath tempOut : String) (w h : ℕ) :
    List String :=
  [ffmpeg,
   "-i", videoPath,
   "-f", "lavfi", "-i",
   "color=black:s=" ++ toString w ++ "x" ++ toString h ++ ":d=1",
   "-filter_complex", "[0:v][1:v]concat=n=2:v=1[v]",
   "-map", "[v]",
   "-map", "0:a",
   "-c:v", "libx264",
   "-c:a", "copy",
   "-y", tempOut]

/-! ## FilterGenerator (filters.py)

The available_filters dict is modelled as a function avail : String → Bool
(every key that the generators read is in filters_to_check, so the probe
result is what dict.get returns).  Rationals stand for Python floats; their
textual rendering inside the generated programs therefore differs from
CPython float formatting, which does not affect any property proved here. -/

/-- The filter names probed by FilterGenerator._check_available_filters
(filters.py lines 26-31). -/
def filtersToCheck : List String :=
  ["zoompan", "scale", "rotate", "fade", "xfade",
   "crop", "overlay", "colorchannelmixer", "curves",
   "eq", "vignette", "noise", "gblur", "minterpolate",
   "split", "blend", "setpts", "fps", "format"]

/-- FilterGenerator._check_available_filters (filters.py lines 24-37):
the availability mapping together with the number of
FFmpegUtils.check_filter_available probe subprocesses it launches
(one per listed filter name). -/
def checkAvailableFilters (probe : String → Bool) :
    List (String × Bool) × ℕ :=
  (filtersToCheck.map (fun n => (n, probe n)), filtersToCheck.length)

/-- FilterGenerator.get_easing_expression (filters.py lines 39-51): the
transcoder expression string for an easing kind, with the placeholder names
t and d substituted.  Unknown kinds fall back to the "ease" entry
(easing_map.get default). -/
def getEasingExpression (easingType t d : String) : String :=
  let easeStr := "(3*pow(" ++ t ++ "/" ++ d ++ ",2) - 2*pow(" ++ t ++ "/" ++ d ++ ",3))"
  if easingType = "linear" then t ++ "/" ++ d
  else if easingType = "ease" then easeStr
  else if easingType = "ease-in" then "pow(" ++ t ++ "/" ++ d ++ ",2)"
  else if easingType = "ease-out" then "(1 - pow(1-" ++ t ++ "/" ++ d ++ ",2))"
  else if easingType = "ease-in-out" then
    "if(lt(" ++ t ++ "," ++ d ++ "/2), 2*pow(" ++ t ++ "/" ++ d ++
      ",2), 1-2*pow(1-" ++ t ++ "/" ++ d ++ ",2))"
  else if easingType = "bounce" then
    "if(lt(" ++ t ++ "," ++ d ++ "/2), 2*pow(" ++ t ++ "/" ++ d ++
      ",2), 1-2*pow(1-" ++ t ++ "/" ++ d ++ ",2))*abs(sin(10*" ++ t ++ "/" ++ d ++ "))"
  else if easingType = "elastic" then
    "1-cos(20*" ++ t ++ "/" ++ d ++ ")*exp(-5*" ++ t ++ "/" ++ d ++ ")"
  else if easingType = "back" then
    "pow(" ++ t ++ "/" ++ d ++ ",2)*(2.70158*(" ++ t ++ "/" ++ d ++ ")-1.70158)"
  else easeStr

/-- FilterGenerator.generate_ken_burns_filter (filters.py lines 53-175).
Returns the empty string when the zoompan primitive is unavailable
(lines 58-60) and for every effect id outside the eight implemented
branches (line 175).  The string \x27 is the single-quote character of the
generated transcoder program; the floor models the Python int() truncation
of duration * fps, which agrees with it on the nonnegative durations the
engine passes. -/
def generateKenBurnsFilter (avail : String → Bool) (effect : String)
    (duration : ℚ) (intensity : ℚ) (w h : ℕ) (easing : String) : String :=
  if !(avail "zoompan") then ""
  else
    let fps : ℕ := 60
    let totalFrames : ℤ := ⌊duration * fps⌋
    let tf := toString totalFrames
    let f := intensity / 100
    let easingExpr := getEasingExpression easing "on" tf
    let scale2x := "scale=" ++ toString (w * 2) ++ ":" ++ toString (h * 2)
      ++ ":flags=lanczos"
    let zoompanCentered := fun (z : String) =>
      "zoompan=z=\x27" ++ z ++ "\x27:d=" ++ tf ++
        ":x=\x27(iw-ow)/2\x27:y=\x27(ih-oh)/2\x27:s=" ++ toString w ++ "x" ++
        toString h ++ ":fps=" ++ toString fps
    let zoompanXY := fun (z x y : String) =>
      "zoompan=z=\x27" ++ z ++ "\x27:d=" ++ tf ++ ":x=\x27" ++ x ++
        "\x27:y=\x27" ++ y ++ "\x27:s=" ++ toString w ++ "x" ++ toString h ++
        ":fps=" ++ toString fps
    if effect = "zoomIn" then
      let startScale := 1 + f * 0.3
      let scaleExpr := toString startScale ++ "-(" ++ toString startScale ++
        "-" ++ toString (1 : ℚ) ++ ")*" ++ easingExpr
      let parts := [scale2x, zoompanCentered scaleExpr]
      let parts := if avail "minterpolate" then
          parts ++ ["minterpolate=fps=" ++ toString fps ++
            ":mi_mode=mci:mc_mode=aobmc:me_mode=bidir"]
        else parts
      joinSep "," parts
    else if effect = "zoomOut" then
      let endScale := 1 + f * 0.3
      let scaleExpr := toString (1 : ℚ) ++ "+(" ++ toString endScale ++ "-" ++
        toString (1 : ℚ) ++ ")*" ++ easingExpr
      let parts := [scale2x, zoompanCentered scaleExpr]
      let parts := if avail "minterpolate" then
          parts ++ ["minterpolate=fps=" ++ toString fps ++ ":mi_mode=mci"]
        else parts
      joinSep "," parts
    else if effect = "panLeft" then
      let zoom := 1.2 + f * 0.2
      let panDistance := f * 0.3
      let xExpr := "(iw-ow)*" ++ toString panDistance ++ "*(1-" ++ easingExpr ++ ")"
      scale2x ++ "," ++ zoompanXY (toString zoom) xExpr "(ih-oh)/2"
    else if effect = "panRight" then
      let zoom := 1.2 + f * 0.2
      let panDistance := f * 0.3
      let xExpr := "(iw-ow)*" ++ toString panDistance ++ "*" ++ easingExpr
      scale2x ++ "," ++ zoompanXY (toString zoom) xExpr "(ih-oh)/2"
    else if effect = "rotate" then
      let angle := f * 15
      let rotateExpr := toString angle ++ "*sin(2*PI*" ++ easingExpr ++ ")"
      let zoom : ℚ := 1.3
      if avail "rotate" then
        scale2x ++ ",rotate=" ++ rotateExpr ++
          "*PI/180:c=none:ow=rotw(iw):oh=roth(ih),scale=" ++ toString w ++
          ":" ++ toString h ++
          ":force_original_aspect_ratio=increase:flags=lanczos,crop=" ++
          toString w ++ ":" ++ toString h
      else
        scale2x ++ "," ++ zoompanCentered (toString zoom)
    else if effect = "diagonal" then
      let zoom := 1.3 + f * 0.2
      let panAmount := f * 0.2
      let xExpr := "(iw-ow)*" ++ toString panAmount ++ "*" ++ easingExpr
      let yExpr := "(ih-oh)*" ++ toString panAmount ++ "*" ++ easingExpr
      scale2x ++ "," ++ zoompanXY (toString zoom) xExpr yExpr
    else if effect = "zoomRotate" then
      let endScale := 1 + f * 0.3
      let scaleExpr := toString (1 : ℚ) ++ "+(" ++ toString endScale ++ "-" ++
        toString (1 : ℚ) ++ ")*" ++ easingExpr
      let angle := f * 10
      let rotateExpr := toString angle ++ "*" ++ easingExpr
      let parts := [scale2x, zoompanCentered scaleExpr]
      let parts := if avail "rotate" then
          parts ++ ["rotate=" ++ rotateExpr ++ "*PI/180:c=none"]
        else parts
      joinSep "," parts
    else if effect = "parallax" then
      let zoom : ℚ := 1.4
      let xExpr := "(iw-ow)/2+sin(2*PI*" ++ easingExpr ++ ")*" ++ toString (f * 50)
      let yExpr := "(ih-oh)/2+cos(2*PI*" ++ easingExpr ++ ")*" ++ toString (f * 30)
      scale2x ++ "," ++ zoompanXY (toString zoom) xExpr yExpr
    else ""

/-- FilterGenerator.generate_capcut_filter (filters.py lines 177-278).
Returns the empty string for spin when the rotate primitive is unavailable
(lines 270-276) and for every effect id outside the nine implemented
branches (line 278). -/
def generateCapcutFilter (avail : String → Bool) (effect : String)
    (duration : ℚ) (s : EffectSettings) (clipIndex : ℕ) : String :=
  let scaleBoth := fun (z : String) =>
    "scale=w=\x27iw*(" ++ z ++ ")\x27:h=\x27ih*(" ++ z ++
      ")\x27:eval=frame:flags=lanczos"
  if effect = "zoomBurst" then
    let startScale := s.zoom_burst_start / 100
    let decayTime := s.zoom_burst_decay / 100 * duration
    let scaleExpr := "if(lt(t," ++ toString decayTime ++ ")," ++
      toString startScale ++ "*exp(-3*t/" ++ toString decayTime ++
      ")+1*(1-exp(-3*t/" ++ toString decayTime ++ ")),1)"
    scaleBoth scaleExpr
  else if effect = "pulse" then
    let amplitude := s.scale_amplitude / 100 * 0.1
    let frequency : ℚ := 2.5
    let scaleExpr := "1+" ++ toString amplitude ++ "*sin(2*PI*t*" ++
      toString frequency ++ "/" ++ toString duration ++ ")"
    scaleBoth scaleExpr
  else if effect = "bounce" then
    let amplitude := s.scale_amplitude / 100 * 0.15
    let scaleExpr := "1+" ++ toString amplitude ++ "*sin(10*PI*t/" ++
      toString duration ++ ")*exp(-5*t/" ++ toString duration ++ ")"
    scaleBoth scaleExpr
  else if effect = "shake" then
    let intensity := s.motion_intensity / 100 * 10
    let xShake := toString intensity ++ "*sin(t*50+" ++ toString clipIndex ++ ")"
    let yShake := toString intensity ++ "*cos(t*37+" ++ toString (clipIndex * 2) ++ ")"
    "crop=w=iw-" ++ toString (intensity * 2) ++ ":h=ih-" ++
      toString (intensity * 2) ++ ":x=\x27" ++ toString intensity ++ "+" ++
      xShake ++ "\x27:y=\x27" ++ toString intensity ++ "+" ++ yShake ++
      "\x27:eval=frame"
  else if effect = "glitch" then
    let intensity := s.motion_intensity / 100
    if avail "split" && avail "blend" then
      "split[main][glitch];[glitch]crop=w=iw:h=ih/3:x=0:y=ih/3,setpts=PTS+" ++
        toString (intensity * 0.1) ++ "[g1];[main][g1]overlay=x=" ++
        toString (intensity * 5) ++
        "*sin(t*10):y=H/3:enable=\x27mod(t,0.5)\x27"
    else
      "eq=brightness=" ++ toString (1 + intensity * 0.1) ++
        "*sin(t*20):eval=frame"
  else if effect = "chromatic" then
    let intensity := s.motion_intensity / 100 * 5
    if avail "split" && avail "colorchannelmixer" then
      "split=3[r][g][b];" ++
        "[r]colorchannelmixer=1:0:0:0:0:0:0:0:0:0:0:0[red];" ++
        "[g]colorchannelmixer=0:0:0:0:1:0:0:0:0:0:0:0[green];" ++
        "[b]colorchannelmixer=0:0:0:0:0:0:0:0:1:0:0:0[blue];" ++
        "[red]setpts=PTS-" ++ toString (intensity * 0.01) ++ "/TB[r1];" ++
        "[blue]setpts=PTS+" ++ toString (intensity * 0.01) ++ "/TB[b1];" ++
        "[r1][green]blend=all_mode=screen[rg];" ++
        "[rg][b1]blend=all_mode=screen"
    else
      "eq=saturation=1+" ++ toString (intensity * 0.1) ++
        "*sin(t*5):eval=frame"
  else if effect = "zoomBlur" then
    let intensity := s.motion_intensity / 100
    let zoomExpr := "1+0.1*sin(2*PI*t/" ++ toString duration ++ ")"
    if avail "gblur" then
      "scale=w=\x27iw*(" ++ zoomExpr ++ ")\x27:h=\x27ih*(" ++ zoomExpr ++
        ")\x27:eval=frame,gblur=sigma=" ++ toString (intensity * 5) ++
        "*abs(sin(2*PI*t/" ++ toString duration ++ ")):steps=1"
    else
      "scale=w=\x27iw*(" ++ zoomExpr ++ ")\x27:h=\x27ih*(" ++ zoomExpr ++
        ")\x27:eval=frame"
  else if effect = "wobble" then
    let amplitude := s.motion_intensity / 100 * 0.05
    let wobbleExpr := "1+" ++ toString amplitude ++ "*sin(4*PI*t/" ++
      toString duration ++ ")*cos(2*PI*t/" ++ toString duration ++ ")"
    "scale=w=\x27iw*(" ++ wobbleExpr ++ ")\x27:h=\x27ih\x27:eval=frame"
  else if effect = "spin" then
    if avail "rotate" then
      let speed := s.motion_intensity / 100 * 360
      "rotate=a=" ++ toString speed ++ "*t*PI/180:c=none:ow=rotw(iw):oh=roth(ih)"
    else ""
  else ""

/-- Whether needle occurs as a substring of hay (the Python in operator on
strings, filters.py line 511). -/
def containsSub (needle hay : String) : Bool :=
  decide (needle.toList <:+: hay.toList)

/-- The audio effect table of FilterGenerator.generate_audio_filter
(filters.py lines 495-506). -/
def audioEffectFilters : List (String × String) :=
  [("bass", "bass=g=10:f=100"),
   ("reverb", "aecho=0.8:0.9:40:0.4"),
   ("echo", "aecho=0.8:0.7:60:0.5"),
   ("chorus", "chorus=0.5:0.9:50|60|40:0.4|0.32|0.3:0.25|0.4|0.3:2|2.3|1.3"),
   ("telephone", "highpass=f=300,lowpass=f=3000"),
   ("underwater", "lowpass=f=500,aecho=0.8:0.9:1000:0.3"),
   ("radio", "highpass=f=300,lowpass=f=3000,aecho=0.8:0.7:40:0.25"),
   ("vintage", "lowpass=f=8000,aecho=0.6:0.8:60:0.35"),
   ("distortion", "acompressor=threshold=0.5:ratio=5:attack=10"),
   ("robot", "afftfilt=real=\x27re * (1-clip((b/nb)*b,0,1))\x27:imag=\x27im * (1-clip((b/nb)*b,0,1))\x27")]

/-- FilterGenerator.generate_audio_filter (filters.py lines 476-537).
probe is FFmpegUtils.check_filter_available (a fresh transcoder subprocess
per invocation, utils.py lines 181-190) and pf is the Python float parser
for the pitch string.  The second component counts how many probe
subprocesses this single call launches.  The asetrate fallback renders the
rate multiplier 2 ** (semitones / 12) symbolically where CPython would
interpolate the evaluated float. -/
def generateAudioFilter (probe : String → Bool) (pf : String → Option ℚ)
    (s : EffectSettings) : String × ℕ :=
  let (pitchFilters, pitchProbes) :=
    if s.audio_pitch ≠ "0" then
      match pf s.audio_pitch with
      | some semitones =>
        if probe "rubberband" then
          (["rubberband=pitch=" ++ toString semitones], 1)
        else
          (["asetrate=44100*2^(" ++ toString semitones ++
            "/12),aresample=44100"], 1)
      | none => (([] : List String), 0)
    else (([] : List String), 0)
  let (effectFilterList, effectProbes) :=
    match audioEffectFilters.lookup s.audio_effect with
    | some f =>
      if containsSub "afftfilt" f then
        if !(probe "afftfilt") then
          (["aecho=0.8:0.8:5:0.7,aecho=0.8:0.8:11:0.5"], 1)
        else ([f], 1)
      else ([f], 0)
    | none => (([] : List String), 0)
  let (stereoFilters, stereoProbes) :=
    if s.audio_stereo_enhance then
      if probe "stereotools" then (["stereotools=slev=1.5:sbal=0"], 1)
      else (([] : List String), 1)
    else (([] : List String), 0)
  let compressorFilters :=
    if s.audio_compressor then
      ["acompressor=threshold=0.1:ratio=4:attack=5:release=50"]
    else []
  let limiterFilters :=
    if s.audio_limiter then ["alimiter=limit=0.95:attack=5:release=50"]
    else []
  let (normalizeFilters, normalizeProbes) :=
    if s.audio_normalize then
      if probe "loudnorm" then (["loudnorm=I=-16:TP=-1.5:LRA=11"], 1)
      else (["volume=0.9"], 1)
    else (([] : List String), 0)
  let filters := pitchFilters ++ effectFilterList ++ stereoFilters ++
    compressorFilters ++ limiterFilters ++ normalizeFilters
  (if filters.isEmpty then "anull" else joinSep "," filters,
   pitchProbes + effectProbes + stereoProbes + normalizeProbes)

/-! ## Real-number semantics of the compiled Ken Burns zoom expressions

The zoompan z expression emitted by generate_ken_burns_filter is a closed
arithmetic formula over the frame clock.  easingVal is the value of the
formula produced by get_easing_expression at clock value t with total
duration d (pow, sin, cos, exp, abs and the if(lt(..)..) conditional of the
transcoder expression language become their real counterparts); unknown
easing kinds take the "ease" formula exactly as the dict .get default
does. -/

/-- Value at clock t of the easing expression emitted by
FilterGenerator.get_easing_expression (filters.py lines 39-51). -/
noncomputable def easingVal (easingType : String) (t d : ℝ) : ℝ :=
  let easeVal := 3 * (t / d) ^ 2 - 2 * (t / d) ^ 3
  if easingType = "linear" then t / d
  else if easingType = "ease" then easeVal
  else if easingType = "ease-in" then (t / d) ^ 2
  else if easingType = "ease-out" then 1 - (1 - t / d) ^ 2
  else if easingType = "ease-in-out" then
    if t < d / 2 then 2 * (t / d) ^ 2 else 1 - 2 * (1 - t / d) ^ 2
  else if easingType = "bounce" then
    (if t < d / 2 then 2 * (t / d) ^ 2 else 1 - 2 * (1 - t / d) ^ 2) *
      |Real.sin (10 * t / d)|
  else if easingType = "elastic" then
    1 - Real.cos (20 * t / d) * Real.exp (-5 * t / d)
  else if easingType = "back" then
    (t / d) ^ 2 * (2.70158 * (t / d) - 1.70158)
  else easeVal

/-- Value at clock t of the zoomIn scale expression
start_scale - (start_scale - end_scale) * easing with
start_scale = 1 + intensity / 100 * 0.3 and end_scale = 1
(filters.py lines 72-75). -/
noncomputable def kenBurnsZoomInScale (easing : String) (intensity d t : ℝ) : ℝ :=
  let startScale := 1 + intensity / 100 * 0.3
  startScale - (startScale - 1) * easingVal easing t d

/-- Value at clock t of the zoomOut scale expression
start_scale + (end_scale - start_scale) * easing with start_scale = 1 and
end_scale = 1 + intensity / 100 * 0.3 (filters.py lines 88-91). -/
noncomputable def kenBurnsZoomOutScale (easing : String) (intensity d t : ℝ) : ℝ :=
  let endScale := 1 + intensity / 100 * 0.3
  1 + (endScale - 1) * easingVal easing t d

/-! ## Helper lemmas -/

/-- A string append is nonempty when its left part is. -/
theorem append_ne_empty_left (s t : String) (h : s ≠ "") : s ++ t ≠ "" := by
  intro he
  apply h
  have hl : (s ++ t).length = 0 := by rw [he]; rfl
  rw [String.length_append] at hl
  have hs : s.length = 0 := by omega
  cases s with
  | mk data =>
    simp [String.length] at hs
    simp [hs]

/-- A separator join of a list with a nonempty head is nonempty. -/
theorem joinSep_ne_empty (sep a : String) (rest : List String) (h : a ≠ "") :
    joinSep sep (a :: rest) ≠ "" := by
  cases rest with
  | nil => simpa [joinSep]
  | cons b r =>
    show a ++ sep ++ joinSep sep (b :: r) ≠ ""
    exact append_ne_empty_left _ _ (append_ne_empty_left _ _ h)

/-- The cosine of 20 radians is nonnegative (20 - 6 pi lies in the first
quadrant). -/
theorem cos_twenty_nonneg : 0 ≤ Real.cos 20 := by
  have h : Real.cos ((20 : ℝ) - (3 : ℤ) * (2 * Real.pi)) = Real.cos 20 :=
    Real.cos_sub_int_mul_two_pi 20 3
  rw [← h]
  refine Real.cos_nonneg_of_mem_Icc ⟨?_, ?_⟩
  · push_cast
    linarith [Real.pi_lt_d6]
  · push_cast
    linarith [Real.pi_gt_d6]

/-- Every easing formula evaluates to 0 at clock 0. -/
theorem easingVal_zero (easing : String) (d : ℝ) (hd : 0 < d) :
    easingVal easing 0 d = 0 := by
  have h2 : (0 : ℝ) < d / 2 := by positivity
  unfold easingVal
  split_ifs
  all_goals simp [zero_div, Real.cos_zero, Real.exp_zero]

/-- Every easing formula evaluates into the unit interval at clock d. -/
theorem easingVal_end (easing : String) (d : ℝ) (hd : 0 < d) :
    0 ≤ easingVal easing d d ∧ easingVal easing d d ≤ 1 := by
  have hdd : d / d = 1 := div_self hd.ne'
  have hnd : ¬ d < d / 2 := by intro h; linarith
  have h10 : (10 : ℝ) * d / d = 10 := by rw [mul_div_assoc, hdd, mul_one]
  have h20 : (20 : ℝ) * d / d = 20 := by rw [mul_div_assoc, hdd, mul_one]
  have h5 : (-5 : ℝ) * d / d = -5 := by rw [mul_div_assoc, hdd, mul_one]
  have hsin : |Real.sin 10| ≤ 1 := by
    rw [abs_le]; exact ⟨Real.neg_one_le_sin 10, Real.sin_le_one 10⟩
  have hsin0 : 0 ≤ |Real.sin 10| := abs_nonneg _
  have hcos : (0 : ℝ) ≤ Real.cos 20 * Real.exp (-5) :=
    mul_nonneg cos_twenty_nonneg (Real.exp_pos _).le
  have hcos1 : Real.cos 20 * Real.exp (-5) ≤ 1 :=
    mul_le_one₀ (Real.cos_le_one 20) (Real.exp_pos _).le
      (Real.exp_le_one_iff.mpr (by norm_num))
  unfold easingVal
  split_ifs
  all_goals simp only [hdd, h10, h20, h5]
  all_goals norm_num
  all_goals try constructor
  all_goals nlinarith

/-- The stream fallback of get_duration yields nothing when no stream
duration parses. -/
theorem firstParsedStream_eq_none (pf : String → Option ℚ)
    (l : List (Option String))
    (h : ∀ o ∈ l, ∀ s, o = some s → pf s = none) :
    firstParsedStream pf l = none := by
  induction l with
  | nil => rfl
  | cons a rest ih =>
    cases a with
    | none =>
      show firstParsedStream pf rest = none
      exact ih (fun o ho s hs => h o (List.mem_cons_of_mem _ ho) s hs)
    | some s =>
      show (match pf s with
        | some v => some v
        | none => firstParsedStream pf rest) = none
      rw [h (some s) (List.mem_cons_self _ _) s rfl]
      exact ih (fun o ho s hs => h o (List.mem_cons_of_mem _ ho) s hs)

/-! ## Claim C5 -/

/-- Claim C5, counterexample: with timing policy random (engine.py
lines 860-864), a clip that receives a transient effect gets BOTH slots
filled, so it is false that exactly one of transientStart and transientEnd
receives the chosen effect while the other stays empty. -/
theorem c5_counterexample :
    ¬(((capcutSlots "random" "glitch" "pulse" "shake").1.isSome ∧
        (capcutSlots "random" "glitch" "pulse" "shake").2 = none) ∨
      ((capcutSlots "random" "glitch" "pulse" "shake").1 = none ∧
        (capcutSlots "random" "glitch" "pulse" "shake").2.isSome)) := by
  decide

/-- Claim C5, amended: under timing policy random both slots receive an
effect (each drawn by its own random.choice call); the policies start, end
and middle fill exactly one slot, middle landing in the start slot. -/
theorem c5_amended (c1 c2 c3 : String) :
    capcutSlots "random" c1 c2 c3 = (some c1, some c2) ∧
    capcutSlots "start" c1 c2 c3 = (some c1, none) ∧
    capcutSlots "end" c1 c2 c3 = (none, some c2) ∧
    capcutSlots "middle" c1 c2 c3 = (some c3, none) :=
  ⟨rfl, rfl, rfl, rfl⟩

/-! ## Claim C6 -/

/-- Claim C6, counterexample: after a successful assembly with
add_black_frame enabled but fade_out_to_black disabled, the black frame
step does not run (engine.py line 600 requires both toggles), refuting
independence from the other effect toggles. -/
theorem c6_counterexample :
    (combineClipsTail true
      { add_black_frame := true, fade_out_to_black := false }
      false ⟨[], true, false, 0⟩).2 = false := by
  decide

/-- Claim C6, amended: the black frame step runs exactly when the assembly
succeeded and BOTH add_black_frame and fade_out_to_black are enabled (it is
not independent of the fade-out toggle); when it runs, the command
re-encodes video with libx264 while stream-copying audio. -/
theorem c6_amended (assembleOk : Bool) (eff : EffectSettings)
    (ovEnabled : Bool) (ov : OverlayOutcome)
    (ffmpeg videoPath tempOut : String) (w h : ℕ) :
    ((combineClipsTail assembleOk eff ovEnabled ov).2 = true ↔
      (assembleOk = true ∧ eff.add_black_frame = true ∧
        eff.fade_out_to_black = true)) ∧
    ["-c:v", "libx264", "-c:a", "copy"] <:+:
      addBlackFrameCmd ffmpeg videoPath tempOut w h := by
  constructor
  · simp [combineClipsTail, Bool.and_eq_true, and_assoc]
  · exact ⟨[ffmpeg, "-i", videoPath, "-f", "lavfi", "-i",
      "color=black:s=" ++ toString w ++ "x" ++ toString h ++ ":d=1",
      "-filter_complex", "[0:v][1:v]concat=n=2:v=1[v]",
      "-map", "[v]", "-map", "0:a"], ["-y", tempOut], rfl⟩

/-! ## Claim C9 -/

/-- Claim C9: under frequency policy every k with k at least 1, the
transient-effect predicate holds for 0-based clip index i exactly when
(i + 1) mod k = 0 (engine.py lines 878-879). -/
theorem c9_every_k (s : EffectSettings) (roll : ℕ) (coin : Bool) (i : ℕ)
    (hf : s.effect_frequency = "every") (hk : 1 ≤ s.effect_every) :
    (shouldApplyCapcut s roll coin i = true ↔
      (i + 1) % s.effect_every = 0) := by
  simp [shouldApplyCapcut, hf]

/-- Claim C9, witness: for k = 3 over 10 clips the predicate fires exactly
on indices 2, 5 and 8, and the characterization instantiates at index 2. -/
theorem c9_witness :
    ((List.range 10).filter (fun i => shouldApplyCapcut
      { effect_frequency := "every", effect_every := 3 } 0 false i))
      = [2, 5, 8] ∧
    (shouldApplyCapcut { effect_frequency := "every", effect_every := 3 }
      0 false 2 = true ↔ (2 + 1) % 3 = 0) :=
  ⟨by decide,
   c9_every_k { effect_frequency := "every", effect_every := 3 }
     0 false 2 rfl (by decide)⟩

/-! ## Claim C10 -/

/-- Claim C10: duration probing is total; whenever neither the media-info
metadata (format section or any stream) nor the Duration pattern on the
diagnostic output yields a parsable duration, get_duration returns the
fixed default 10.0 seconds, so an unprobeable paired audio file renders the
clip with a 10-second duration instead of failing (utils.py lines 128-163,
used at engine.py line 203). -/
theorem c10_duration_default (pf : String → Option ℚ) (m : MediaProbe)
    (hfmt : ∀ s, m.fmtDuration = some s → pf s = none)
    (hstream : ∀ o ∈ m.streamDurations, ∀ s, o = some s → pf s = none)
    (hstderr : m.stderrDuration = none) :
    getDuration pf m = 10 := by
  unfold getDuration
  have h1 : m.fmtDuration.bind pf = none := by
    cases hfd : m.fmtDuration with
    | none => rfl
    | some s => simp [hfmt s hfd]
  rw [h1, firstParsedStream_eq_none pf m.streamDurations hstream, hstderr]

/-- Claim C10, witness: a probe whose format field holds an unparsable
string, whose streams hold no parsable duration and whose diagnostic
output had no Duration match yields exactly 10. -/
theorem c10_witness :
    getDuration (fun _ => none) ⟨some "abc", [none, some "x"], none⟩ = 10 :=
  c10_duration_default (fun _ => none) ⟨some "abc", [none, some "x"], none⟩
    (fun _ _ => rfl) (by intro o _ s _; rfl) rfl

/-! ## Claim C2 -/

/-- Claim C2: a clip artifact is returned only when the encoder exited with
code 0 and the output file exists; a failed pair is skipped while the loop
continues with the remaining pairs; and with a successful final assembly
the whole channel render returns no output path exactly when zero clips
survived the loop. -/
theorem c2_clip_survival :
    (∀ (o : ClipEncodeOutcome) (p q : String),
      createVideoClip o p = some q →
        o.returncode = 0 ∧ o.outputExists = true) ∧
    (∀ (o : ClipEncodeOutcome) (p : String)
      (rest : List (ClipEncodeOutcome × String)),
      createVideoClip o p = none →
        generateClips ((o, p) :: rest) = generateClips rest) ∧
    (∀ (pairs : List (ClipEncodeOutcome × String)) (out : String),
      generateChannelMontage pairs true out = none ↔
        generateClips pairs = []) := by
  refine ⟨?_, ?_, ?_⟩
  · intro o p q h
    unfold createVideoClip at h
    split_ifs at h with h1 h2 h3
    exact ⟨h3.1, h3.2⟩
  · intro o p rest h
    simp [generateClips, List.filterMap_cons, h]
  · intro pairs out
    by_cases hp : pairs = []
    · subst hp
      simp [generateChannelMontage, generateClips]
    · have hp2 : pairs.isEmpty = false := by
        simpa [List.isEmpty_iff] using hp
      by_cases hc : generateClips pairs = []
      · simp [generateChannelMontage, hp2, hc]
      · have hc2 : (generateClips pairs).isEmpty = false := by
          simpa [List.isEmpty_iff] using hc
        simp [generateChannelMontage, hp2, hc2, hc]

/-- Claim C2, witness: a pair whose encoder exited 0 with an existing
output yields a surviving clip and the channel succeeds, instantiating the
zero-survivors characterization at a concrete pair list. -/
theorem c2_witness :
    generateChannelMontage [(⟨true, false, 0, true⟩, "clip.mp4")] true
      "out.mp4" = none ↔
    generateClips [(⟨true, false, 0, true⟩, "clip.mp4")] = [] :=
  c2_clip_survival.2.2 [(⟨true, false, 0, true⟩, "clip.mp4")] "out.mp4"

/-! ## Claim C3 -/

/-- Claim C3, counterexample: when overlay compositing fails (encoder exit
code 1) after the final output file was produced, the pre-overlay file is
indeed not deleted, but the channel render does NOT report success: the
combine step returns failure and the channel render returns no output path
(engine.py lines 604-607 and 249-255), refuting the retained-as-result
part of the claim. -/
theorem c3_counterexample :
    (applyOverlays ⟨["overlay.png"], true, false, 1⟩).2 = false ∧
    (combineClipsTail true ({} : EffectSettings) true
      ⟨["overlay.png"], true, false, 1⟩).1 = false ∧
    generateChannelMontage [(⟨true, false, 0, true⟩, "clip.mp4")]
      ((combineClipsTail true ({} : EffectSettings) true
        ⟨["overlay.png"], true, false, 1⟩).1) "out.mp4" = none := by
  decide

/-- Claim C3, amended: a failed overlay composite never deletes the
pre-overlay output file (the unlink on engine.py line 766 runs only on the
success path), but the failure is fatal to the reported result: the
combine step returns failure and the channel render returns no output
path. -/
theorem c3_amended (ov : OverlayOutcome) (hne : ov.files ≠ [])
    (hex : ov.chosenExists = true) (hr : ov.raised = false)
    (hrc : ov.returncode ≠ 0) :
    applyOverlays ov = (false, false) ∧
    (∀ eff : EffectSettings, (combineClipsTail true eff true ov).1 = false) ∧
    (∀ (pairs : List (ClipEncodeOutcome × String)) (out : String)
      (eff : EffectSettings),
      generateChannelMontage pairs
        ((combineClipsTail true eff true ov).1) out = none) := by
  have hemp : ov.files.isEmpty = false := by
    simpa [List.isEmpty_iff] using hne
  have h1 : applyOverlays ov = (false, false) := by
    simp [applyOverlays, hemp, hex, hr, hrc]
  have h2 : ∀ eff : EffectSettings,
      (combineClipsTail true eff true ov).1 = false := by
    intro eff
    simp [combineClipsTail, hemp, h1, List.isEmpty_iff, hne]
  refine ⟨h1, h2, ?_⟩
  intro pairs out eff
  rw [h2 eff]
  simp [generateChannelMontage]

/-- Claim C3, amended witness: instantiation at a concrete failed overlay
outcome and a concrete surviving pair list. -/
theorem c3_witness :
    applyOverlays ⟨["dust.mp4"], true, false, 2⟩ = (false, false) ∧
    (∀ eff : EffectSettings,
      (combineClipsTail true eff true ⟨["dust.mp4"], true, false, 2⟩).1
        = false) ∧
    (∀ (pairs : List (ClipEncodeOutcome × String)) (out : String)
      (eff : EffectSettings),
      generateChannelMontage pairs
        ((combineClipsTail true eff true
          ⟨["dust.mp4"], true, false, 2⟩).1) out = none) :=
  c3_amended ⟨["dust.mp4"], true, false, 2⟩ (by decide) rfl rfl (by decide)

/-! ## Claim C8 -/

/-- Claim C8: a randomized Ken Burns pick can never equal either of the
previous two picks when the configured list has at least 3 distinct
entries (every member of the candidate list avoids them), and when the
exclusion empties the filtered list the candidate list falls back to the
full configured list (engine.py lines 840-849). -/
theorem c8_kb_no_repeat :
    (∀ (kenBurns used : List String), 3 ≤ kenBurns.dedup.length →
      ∀ e ∈ kbCandidates kenBurns used, e ∉ lastTwo used) ∧
    (∀ (kenBurns used : List String),
      kbAvailable kenBurns used = [] →
        kbCandidates kenBurns used = kenBurns) := by
  constructor
  · intro kenBurns used h3 e he
    have hlen : (lastTwo used).length ≤ 2 := by
      simp [lastTwo, List.length_drop]
      omega
    have hne : kbAvailable kenBurns used ≠ [] := by
      intro hnil
      have hsub : ∀ x ∈ kenBurns, x ∈ lastTwo used := by
        intro x hx
        by_contra hxn
        have hxin : x ∈ kbAvailable kenBurns used :=
          List.mem_filter.mpr ⟨hx, by simp [hxn]⟩
        rw [hnil] at hxin
        exact absurd hxin (List.not_mem_nil x)
      have h1 : kenBurns.toFinset ⊆ (lastTwo used).toFinset := by
        intro x hx
        rw [List.mem_toFinset] at hx ⊢
        exact hsub x hx
      have h2 := Finset.card_le_card h1
      have h4 := List.toFinset_card_le (lastTwo used)
      rw [List.card_toFinset] at h2
      omega
    have hcand : kbCandidates kenBurns used = kbAvailable kenBurns used := by
      have : (kbAvailable kenBurns used).isEmpty = false := by
        simpa [List.isEmpty_iff] using hne
      simp [kbCandidates, this]
    rw [hcand] at he
    have hmem := List.mem_filter.mp he
    simpa using hmem.2
  · intro kenBurns used h
    simp [kbCandidates, h]

/-- Claim C8, witness: with configured list a, b, c and previous picks
a then b, the only candidate is c, which differs from both previous
picks. -/
theorem c8_witness : "c" ∉ lastTwo ["a", "b"] :=
  c8_kb_no_repeat.1 ["a", "b", "c"] ["a", "b"] (by decide) "c" (by decide)

/-! ## Claim C4 -/

/-- Claim C4, counterexample: a single render-time generate_audio_filter
call with the default settings of _process_audio (normalization on)
launches one fresh capability probe subprocess rather than zero, so
audio-filter generation does not read a cached capability set: there is no
process-wide cache in FFmpegUtils.check_filter_available
(utils.py lines 181-190). -/
theorem c4_counterexample :
    (generateAudioFilter (fun _ => true) (fun _ => none)
      ({} : EffectSettings)).2 = 1 ∧
    (generateAudioFilter (fun _ => true) (fun _ => none)
      ({} : EffectSettings)).2 ≠ 0 := by
  decide

/-- Claim C4, amended: the video capability dict is probed once per
FilterGenerator construction (one probe per name of the 19-entry
filters_to_check list) and the filter generators read that dict, but
generate_audio_filter has no cache: every call with normalization enabled
launches at least one fresh probe subprocess. -/
theorem c4_amended (probe : String → Bool) (pf : String → Option ℚ)
    (s : EffectSettings) (hn : s.audio_normalize = true) :
    1 ≤ (generateAudioFilter probe pf s).2 ∧
    (checkAvailableFilters probe).2 = 19 := by
  constructor
  · unfold generateAudioFilter
    rcases hl : audioEffectFilters.lookup s.audio_effect with _ | f <;>
      rcases hpf : pf s.audio_pitch with _ | x <;>
        simp only [hl, hpf, hn] <;> split_ifs <;> simp
  · rfl

/-- Claim C4, amended witness: instantiation at the default effect
settings and an all-false probe. -/
theorem c4_witness :
    1 ≤ (generateAudioFilter (fun _ => false) (fun _ => none)
      ({} : EffectSettings)).2 ∧
    (checkAvailableFilters (fun _ => false)).2 = 19 :=
  c4_amended (fun _ => false) (fun _ => none) ({} : EffectSettings) rfl

/-! ## Claim C7 -/

/-- Claim C7: for every intensity in the range 0 to 100 and every easing
kind (any string, since unknown kinds fall back to the ease formula), the
compiled Ken Burns zoomIn and zoomOut scale expressions evaluate at clock 0
and at clock d to values inside the closed interval between the documented
start scale 1.0 and end scale 1.0 + 0.3 * intensity / 100. -/
theorem c7_ken_burns_scale_bounds (easing : String) (i d : ℝ)
    (hi0 : 0 ≤ i) (hi1 : i ≤ 100) (hd : 0 < d) :
    (1 ≤ kenBurnsZoomInScale easing i d 0 ∧
      kenBurnsZoomInScale easing i d 0 ≤ 1 + 0.3 * i / 100) ∧
    (1 ≤ kenBurnsZoomInScale easing i d d ∧
      kenBurnsZoomInScale easing i d d ≤ 1 + 0.3 * i / 100) ∧
    (1 ≤ kenBurnsZoomOutScale easing i d 0 ∧
      kenBurnsZoomOutScale easing i d 0 ≤ 1 + 0.3 * i / 100) ∧
    (1 ≤ kenBurnsZoomOutScale easing i d d ∧
      kenBurnsZoomOutScale easing i d d ≤ 1 + 0.3 * i / 100) := by
  have h0 := easingVal_zero easing d hd
  obtain ⟨he0, he1⟩ := easingVal_end easing d hd
  have hfac : (0 : ℝ) ≤ i / 100 * 0.3 := by linarith
  have hm1 : 0 ≤ i / 100 * 0.3 * easingVal easing d d := mul_nonneg hfac he0
  have hm2 : 0 ≤ i / 100 * 0.3 * (1 - easingVal easing d d) :=
    mul_nonneg hfac (by linarith)
  simp only [kenBurnsZoomInScale, kenBurnsZoomOutScale, h0]
  refine ⟨⟨?_, ?_⟩, ⟨?_, ?_⟩, ⟨?_, ?_⟩, ⟨?_, ?_⟩⟩ <;> nlinarith [hm1, hm2]

/-- Claim C7, witness: instantiation at easing ease, intensity 30 and
duration 10. -/
theorem c7_witness :
    1 ≤ kenBurnsZoomInScale "ease" 30 10 0 ∧
    kenBurnsZoomInScale "ease" 30 10 10 ≤ 1 + 0.3 * 30 / 100 :=
  ⟨(c7_ken_burns_scale_bounds "ease" 30 10 (by norm_num) (by norm_num)
      (by norm_num)).1.1,
   (c7_ken_burns_scale_bounds "ease" 30 10 (by norm_num) (by norm_num)
      (by norm_num)).2.1.2⟩

/-! ## Claim C1 -/

/-- Claim C1, counterexample: the effect ids elastic and spin are accepted
by validation, yet under the all-false capability set the transient filter
compiler returns the empty string for both (elastic is outside the
implemented branches and so drops even with every capability on), and the
Ken Burns compiler returns the empty string for zoomIn when zoompan is
unavailable — the effects ARE silently dropped, with no simpler
approximation emitted. -/
theorem c1_counterexample :
    generateCapcutFilter (fun _ => false) "elastic" 5
      ({} : EffectSettings) 0 = "" ∧
    generateCapcutFilter (fun _ => false) "spin" 5
      ({} : EffectSettings) 0 = "" ∧
    generateKenBurnsFilter (fun _ => false) "zoomIn" 5 30 1920 1080
      "ease" = "" ∧
    "elastic" ∈ validCapcut ∧ "spin" ∈ validCapcut ∧
    "zoomIn" ∈ validKenBurns := by
  refine ⟨rfl, rfl, rfl, ?_, ?_, ?_⟩ <;> decide

/-- Claim C1, amended: for the eight implemented transient ids other than
spin the compiled filter is non-empty under EVERY capability set (the
capability-dependent ones substitute a simpler approximation); spin is
non-empty whenever rotate is available; and the eight implemented Ken
Burns ids are non-empty whenever zoompan is available.  The remaining
validation-accepted ids, spin without rotate, and Ken Burns without
zoompan compile to the empty string. -/
theorem c1_amended (avail : String → Bool) (dur intensity : ℚ)
    (s : EffectSettings) (idx : ℕ) (w h : ℕ) (easing : String) :
    (generateCapcutFilter avail "zoomBurst" dur s idx ≠ "") ∧
    (generateCapcutFilter avail "pulse" dur s idx ≠ "") ∧
    (generateCapcutFilter avail "bounce" dur s idx ≠ "") ∧
    (generateCapcutFilter avail "shake" dur s idx ≠ "") ∧
    (generateCapcutFilter avail "glitch" dur s idx ≠ "") ∧
    (generateCapcutFilter avail "chromatic" dur s idx ≠ "") ∧
    (generateCapcutFilter avail "zoomBlur" dur s idx ≠ "") ∧
    (generateCapcutFilter avail "wobble" dur s idx ≠ "") ∧
    (avail "rotate" = true →
      generateCapcutFilter avail "spin" dur s idx ≠ "") ∧
    (avail "zoompan" = true →
      (generateKenBurnsFilter avail "zoomIn" dur intensity w h easing ≠ "") ∧
      (generateKenBurnsFilter avail "zoomOut" dur intensity w h easing ≠ "") ∧
      (generateKenBurnsFilter avail "panLeft" dur intensity w h easing ≠ "") ∧
      (generateKenBurnsFilter avail "panRight" dur intensity w h easing ≠ "") ∧
      (generateKenBurnsFilter avail "rotate" dur intensity w h easing ≠ "") ∧
      (generateKenBurnsFilter avail "diagonal" dur intensity w h easing ≠ "") ∧
      (generateKenBurnsFilter avail "zoomRotate" dur intensity w h easing ≠ "") ∧
      (generateKenBurnsFilter avail "parallax" dur intensity w h easing ≠ "")) := by
  refine ⟨?_, ?_, ?_, ?_, ?_, ?_, ?_, ?_, ?_, ?_⟩
  · change _ ++ _ ≠ ""
    repeat apply append_ne_empty_left
    decide
  · change _ ++ _ ≠ ""
    repeat apply append_ne_empty_left
    decide
  · change _ ++ _ ≠ ""
    repeat apply append_ne_empty_left
    decide
  · change _ ++ _ ≠ ""
    repeat apply append_ne_empty_left
    decide
  · show (if avail "split" && avail "blend" then _ else _) ≠ ""
    split_ifs
    all_goals change _ ++ _ ≠ ""
    all_goals repeat apply append_ne_empty_left
    all_goals decide
  · show (if avail "split" && avail "colorchannelmixer" then _ else _) ≠ ""
    split_ifs
    all_goals change _ ++ _ ≠ ""
    all_goals repeat apply append_ne_empty_left
    all_goals decide
  · show (if avail "gblur" then _ else _) ≠ ""
    split_ifs
    all_goals change _ ++ _ ≠ ""
    all_goals repeat apply append_ne_empty_left
    all_goals decide
  · change _ ++ _ ≠ ""
    repeat apply append_ne_empty_left
    decide
  · intro hr
    show (if avail "rotate" then _ else _) ≠ ""
    rw [hr]
    change _ ++ _ ≠ ""
    repeat apply append_ne_empty_left
    decide
  · intro hz
    refine ⟨?_, ?_, ?_, ?_, ?_, ?_, ?_, ?_⟩
    all_goals show (if !(avail "zoompan") then _ else _) ≠ ""
    all_goals rw [hz]
    · show joinSep "," (if avail "minterpolate" then _ else _) ≠ ""
      split_ifs
      all_goals apply joinSep_ne_empty
      all_goals change _ ++ _ ≠ ""
      all_goals repeat apply append_ne_empty_left
      all_goals decide
    · show joinSep "," (if avail "minterpolate" then _ else _) ≠ ""
      split_ifs
      all_goals apply joinSep_ne_empty
      all_goals change _ ++ _ ≠ ""
      all_goals repeat apply append_ne_empty_left
      all_goals decide
    · change _ ++ _ ≠ ""
      repeat apply append_ne_empty_left
      decide
    · change _ ++ _ ≠ ""
      repeat apply append_ne_empty_left
      decide
    · show (if avail "rotate" then _ else _) ≠ ""
      split_ifs
      all_goals change _ ++ _ ≠ ""
      all_goals repeat apply append_ne_empty_left
      all_goals decide
    · change _ ++ _ ≠ ""
      repeat apply append_ne_empty_left
      decide
    · show joinSep "," (if avail "rotate" then _ else _) ≠ ""
      split_ifs
      all_goals apply joinSep_ne_empty
      all_goals change _ ++ _ ≠ ""
      all_goals repeat apply append_ne_empty_left
      all_goals decide
    · change _ ++ _ ≠ ""
      repeat apply append_ne_empty_left
      decide

/-- Claim C1, amended witness: instantiation at the all-true capability
set, where the rotate and zoompan guards discharge concretely. -/
theorem c1_witness :
    generateCapcutFilter (fun _ => true) "zoomBurst" 5
      ({} : EffectSettings) 0 ≠ "" ∧
    generateCapcutFilter (fun _ => true) "spin" 5
      ({} : EffectSettings) 0 ≠ "" ∧
    generateKenBurnsFilter (fun _ => true) "zoomIn" 5 30 1920 1080
      "ease" ≠ "" :=
  ⟨(c1_amended (fun _ => true) 5 30 ({} : EffectSettings) 0 1920 1080
      "ease").1,
   ((c1_amended (fun _ => true) 5 30 ({} : EffectSettings) 0 1920 1080
      "ease").2.2.2.2.2.2.2.2.1 rfl),
   ((c1_amended (fun _ => true) 5 30 ({} : EffectSettings) 0 1920 1080
      "ease").2.2.2.2.2.2.2.2.2 rfl).1⟩

end AutoMontage
